import Mathlib

/-!
Verification of the Weekly Market Table Extractor of the Seafood-analysis
repository (`parse_weekly_data` in `azure-adf-setup/scripts/databricks-notebook.py`,
`_parse_weekly_data` in `comprehensive_analysis.py`,
`_parse_weekly_statistics` in `real_data_analysis.py` — three near-verbatim
copies of the same routine), together with the growth-percentage
computations of the aggregation utilities.

A spreadsheet cell, as delivered by `pd.read_excel(..., header=None)`, is
either missing (NaN — `pd.notna` is false), a string, or a number.  Numbers
are modelled as rationals.  Positional access `row.iloc[j]` raises
`IndexError` when the row has no column `j`; the embedding therefore returns
`Except String` values, with `"IndexError"` as the error payload.
-/

/-- A raw spreadsheet cell: missing (NaN), a string, or a number. -/
inductive Cell where
  | empty : Cell
  | str : String → Cell
  | num : ℚ → Cell
deriving DecidableEq, Repr

/-- A row of the raw grid. -/
abbrev Row := List Cell

/-- The raw grid: an ordered sequence of rows. -/
abbrev RawGrid := List Row

/-- `pd.notna` on a cell: false exactly on a missing value. -/
def notna : Cell → Bool
  | .empty => false
  | .str _ => true
  | .num _ => true

/-- Python `str()` applied to a cell value.  A missing value prints as
`"nan"`; a number prints via the numeric `toString` (the extractor only ever
asks whether such a string contains `"TOTALT"`, equals `"TOTALT"`/`"nan"`, or
trims to empty, and a numeric rendering behaves the same for all of these). -/
def cellStr : Cell → String
  | .empty => "nan"
  | .str s => s
  | .num q => toString q

/-- Python `cell == t` for a string literal `t`: only a string cell can
compare equal to a string. -/
def cellEqStr (c : Cell) (t : String) : Bool :=
  match c with
  | .str s => s == t
  | _ => false

/-- Whether `pat` occurs at the head of `l` (character-list matching). -/
def listHasPre : List Char → List Char → Bool
  | [], _ => true
  | _ :: _, [] => false
  | p :: ps, c :: cs => p == c && listHasPre ps cs

/-- Whether `pat` occurs anywhere inside `l`. -/
def listHasSub (pat : List Char) : List Char → Bool
  | [] => listHasPre pat []
  | c :: cs => listHasPre pat (c :: cs) || listHasSub pat cs

/-- Python's substring test `pat in s`. -/
def strContains (s pat : String) : Bool :=
  listHasSub pat.toList s.toList

/-- Python `str.strip()` whitespace class (ASCII part). -/
def isPySpace (c : Char) : Bool :=
  c == ' ' || c == '\t' || c == '\n' || c == '\r' || c == '\x0b' || c == '\x0c'

/-- Python `s.strip()`: remove leading and trailing whitespace. -/
def pyStrip (s : String) : String :=
  String.mk (((s.toList.dropWhile isPySpace).reverse.dropWhile isPySpace).reverse)

/-- Numeric value of a digit list read in base 10. -/
def digitsToNat (cs : List Char) : Nat :=
  cs.foldl (fun acc c => acc * 10 + (c.toNat - 48)) 0

/-- Mantissa of a decimal literal: digits, optionally with one `.`, at least
one digit in total (`"1"`, `"1.5"`, `"1."`, `".5"`; but not `"."` or `""`),
read as an exact rational. -/
def parseMantissa (cs : List Char) : Option ℚ :=
  let ip := cs.takeWhile Char.isDigit
  let rest := cs.dropWhile Char.isDigit
  match rest with
  | [] => if ip.isEmpty then none else some (digitsToNat ip : ℚ)
  | '.' :: fp =>
      if fp.all Char.isDigit && (!ip.isEmpty || !fp.isEmpty) then
        some ((digitsToNat ip : ℚ) + (digitsToNat fp : ℚ) / ((10 : ℚ) ^ fp.length))
      else none
  | _ => none

/-- Exponent written after `e`/`E`: optional sign, then at least one digit. -/
def parseExp (cs : List Char) : Option Int :=
  match cs with
  | '-' :: ds =>
      if ds.isEmpty || !ds.all Char.isDigit then none
      else some (-(digitsToNat ds : Int))
  | '+' :: ds =>
      if ds.isEmpty || !ds.all Char.isDigit then none
      else some (digitsToNat ds : Int)
  | ds =>
      if ds.isEmpty || !ds.all Char.isDigit then none
      else some (digitsToNat ds : Int)

/-- Multiply a rational by the signed power of ten of an exponent part. -/
def scale10 (q : ℚ) (e : Int) : ℚ :=
  if 0 ≤ e then q * (10 : ℚ) ^ e.toNat else q / (10 : ℚ) ^ (-e).toNat

/-- Parse an unsigned numeric literal as accepted by `pd.to_numeric`:
a decimal mantissa with an optional `e`/`E` exponent part (`"100"`, `"50.5"`,
`"1e5"`, `"2.5E-3"`), read as an exact rational. -/
def parseUnsigned (cs : List Char) : Option ℚ :=
  let mant := cs.takeWhile (fun c => c != 'e' && c != 'E')
  let rest := cs.dropWhile (fun c => c != 'e' && c != 'E')
  match parseMantissa mant with
  | none => none
  | some q =>
    match rest with
    | [] => some q
    | _ :: es => (parseExp es).map (scale10 q)

/-- An (unsigned) infinity spelling recognised by the pandas coercion:
`inf` or `infinity`, in any letter case. -/
def isInfBody (cs : List Char) : Bool :=
  let low := cs.map Char.toLower
  low == ['i', 'n', 'f'] || low == ['i', 'n', 'f', 'i', 'n', 'i', 't', 'y']

/-- The value pandas numeric coercion produces from a string, when it does
not fail: a finite rational, or a signed infinity (`true` = positive). -/
inductive PdNum where
  | fin : ℚ → PdNum
  | inf : Bool → PdNum
deriving DecidableEq, Repr

/-- `pd.to_numeric(s, errors='coerce')` on a string: optional surrounding
whitespace, optional sign, then either a decimal/scientific literal
(`"100"`, `"50.5"`, `"1e5"`, `"2.5E-3"`, exact rational value) or an
infinity spelling (`"inf"`/`"Infinity"`, any case).  `none` is returned
exactly when pandas produces NaN for the string — whether because coercion
fails (a non-numeric string) or because the string itself spells NaN — and
the pipeline's subsequent `.fillna(0)` turns both into 0 alike. -/
def parseNumStr (s : String) : Option PdNum :=
  match (pyStrip s).toList with
  | '-' :: cs =>
      if isInfBody cs then some (.inf false)
      else (parseUnsigned cs).map (fun q => .fin (-q))
  | '+' :: cs =>
      if isInfBody cs then some (.inf true)
      else (parseUnsigned cs).map .fin
  | cs =>
      if isInfBody cs then some (.inf true)
      else (parseUnsigned cs).map .fin

/-- Net numeric normalisation applied to cells 3..10 of an accepted row:
the source stores `row.iloc[j] if pd.notna(row.iloc[j]) else 0` and then runs
`pd.to_numeric(col, errors='coerce').fillna(0)` over the column, so a missing
cell becomes 0, a number is kept, and a string is parsed or coerced to 0.
The rational field model represents every finite result exactly; a cell that
coerces to an infinity (which `fillna` would keep) lies outside the rational
model and is mapped to 0 here — no theorem below constrains such a cell. -/
def coerceNum : Cell → ℚ
  | .empty => 0
  | .num q => q
  | .str s =>
    match parseNumStr s with
    | some (.fin q) => q
    | some (.inf _) => 0
    | none => 0

/-- One normalized output record of the extractor. -/
structure MarketRecord where
  week : Nat
  category : String
  market : String
  currentWeekVolume : ℚ
  currentWeekPrice : ℚ
  previousYearVolume : ℚ
  previousYearPrice : ℚ
  ytdCurrentVolume : ℚ
  ytdCurrentPrice : ℚ
  ytdPreviousVolume : ℚ
  ytdPreviousPrice : ℚ
deriving DecidableEq, Repr

/-- The sentinel test of the scan loop:
`pd.notna(row.iloc[2]) and 'TOTALT' in str(row.iloc[2])`. -/
def sentinelTest (c : Cell) : Bool :=
  notna c && strContains (cellStr c) "TOTALT"

/-- The scan for the data-section start: the index of the first row whose
column-2 cell passes `sentinelTest` (`data_start` in the source), `none`
when no row matches, and `IndexError` when a row examined before any match
has no column 2. -/
def findDataStart : RawGrid → Except String (Option Nat)
  | [] => .ok none
  | row :: rest =>
    match row[2]? with
    | none => .error "IndexError"
    | some c =>
      if sentinelTest c then .ok (some 0)
      else
        match findDataStart rest with
        | .error e => .error e
        | .ok none => .ok none
        | .ok (some k) => .ok (some (k + 1))

/-- Processing of one row of the data section: skipped (`none`) when column 2
is missing-valued, is exactly the string `'TOTALT'` (untrimmed comparison), or
trims to `''` or `'nan'`; otherwise the eight numeric columns 3..10 are read
positionally and one record is emitted.  A column access past the end of the
row raises `IndexError`. -/
def parseRow (week : Nat) (category : String) (row : Row) :
    Except String (Option MarketRecord) :=
  match row[2]? with
  | none => .error "IndexError"
  | some c =>
    if notna c && !cellEqStr c "TOTALT" then
      let market := pyStrip (cellStr c)
      if market != "" && market != "nan" then
        match row[3]?, row[4]?, row[5]?, row[6]?,
              row[7]?, row[8]?, row[9]?, row[10]? with
        | some c3, some c4, some c5, some c6, some c7, some c8, some c9, some c10 =>
          .ok (some
            { week := week
              category := category
              market := market
              currentWeekVolume := coerceNum c3
              currentWeekPrice := coerceNum c4
              previousYearVolume := coerceNum c5
              previousYearPrice := coerceNum c6
              ytdCurrentVolume := coerceNum c7
              ytdCurrentPrice := coerceNum c8
              ytdPreviousVolume := coerceNum c9
              ytdPreviousPrice := coerceNum c10 })
        | _, _, _, _, _, _, _, _ => .error "IndexError"
      else .ok none
    else .ok none

/-- The accumulation loop `for i in range(data_start, len(df))`, collecting
the records of the rows it does not skip, in row order. -/
def parseRows (week : Nat) (category : String) : List Row → Except String (List MarketRecord)
  | [] => .ok []
  | r :: rs =>
    match parseRow week category r with
    | .error e => .error e
    | .ok none => parseRows week category rs
    | .ok (some rec) =>
      match parseRows week category rs with
      | .error e => .error e
      | .ok l => .ok (rec :: l)

/-- `parse_weekly_data(df, week_num, category)`: locate the data section and
collect the records from its start row through the last row.  The source's
`None` / empty-DataFrame results are both the empty record list.  -/
def parse_weekly_data (grid : RawGrid) (week : Nat) (category : String) :
    Except String (List MarketRecord) :=
  match findDataStart grid with
  | .error e => .error e
  | .ok none => .ok []
  | .ok (some k) => parseRows week category (grid.drop k)

/-- The acceptance test of step 2a on a whole row: column 2 present,
non-missing, not exactly `'TOTALT'`, trimmed form neither empty nor `'nan'`. -/
def acceptedRow (row : Row) : Bool :=
  match row[2]? with
  | none => false
  | some c =>
    (notna c && !cellEqStr c "TOTALT") &&
    (pyStrip (cellStr c) != "" && pyStrip (cellStr c) != "nan")

/-- The record produced from an accepted row (total description: absent cells
read as missing; on rows long enough it agrees with `parseRow`). -/
def recordOfRow (week : Nat) (category : String) (row : Row) : MarketRecord :=
  { week := week
    category := category
    market := pyStrip (cellStr ((row[2]?).getD .empty))
    currentWeekVolume := coerceNum ((row[3]?).getD .empty)
    currentWeekPrice := coerceNum ((row[4]?).getD .empty)
    previousYearVolume := coerceNum ((row[5]?).getD .empty)
    previousYearPrice := coerceNum ((row[6]?).getD .empty)
    ytdCurrentVolume := coerceNum ((row[7]?).getD .empty)
    ytdCurrentPrice := coerceNum ((row[8]?).getD .empty)
    ytdPreviousVolume := coerceNum ((row[9]?).getD .empty)
    ytdPreviousPrice := coerceNum ((row[10]?).getD .empty) }

theorem parseRow_of_accepted (w : Nat) (cat : String) (row : Row)
    (h : acceptedRow row = true) (hlen : 11 ≤ row.length) :
    parseRow w cat row = .ok (some (recordOfRow w cat row)) := by
  rcases hc : row[2]? with _ | c
  · simp [acceptedRow, hc] at h
  · simp only [acceptedRow, hc, Bool.and_eq_true] at h
    obtain ⟨hA, hB⟩ := h
    have h3 : row[3]? = some row[3] := List.getElem?_eq_getElem (by omega)
    have h4 : row[4]? = some row[4] := List.getElem?_eq_getElem (by omega)
    have h5 : row[5]? = some row[5] := List.getElem?_eq_getElem (by omega)
    have h6 : row[6]? = some row[6] := List.getElem?_eq_getElem (by omega)
    have h7 : row[7]? = some row[7] := List.getElem?_eq_getElem (by omega)
    have h8 : row[8]? = some row[8] := List.getElem?_eq_getElem (by omega)
    have h9 : row[9]? = some row[9] := List.getElem?_eq_getElem (by omega)
    have h10 : row[10]? = some row[10] := List.getElem?_eq_getElem (by omega)
    simp [parseRow, recordOfRow, hc, Bool.and_eq_true, hA, hB,
      h3, h4, h5, h6, h7, h8, h9, h10]

theorem parseRow_ok_none (w : Nat) (cat : String) (row : Row)
    (h : parseRow w cat row = .ok none) : acceptedRow row = false := by
  rcases hc : row[2]? with _ | c
  · simp [parseRow, hc] at h
  · simp only [parseRow, hc] at h
    simp only [acceptedRow, hc]
    by_cases hA : (notna c && !cellEqStr c "TOTALT") = true
    · rw [if_pos hA] at h
      by_cases hB : (pyStrip (cellStr c) != "" && pyStrip (cellStr c) != "nan") = true
      · rw [if_pos hB] at h
        rcases h3 : row[3]? with _ | c3 <;> rw [h3] at h <;>
        rcases h4 : row[4]? with _ | c4 <;> rw [h4] at h <;>
        rcases h5 : row[5]? with _ | c5 <;> rw [h5] at h <;>
        rcases h6 : row[6]? with _ | c6 <;> rw [h6] at h <;>
        rcases h7 : row[7]? with _ | c7 <;> rw [h7] at h <;>
        rcases h8 : row[8]? with _ | c8 <;> rw [h8] at h <;>
        rcases h9 : row[9]? with _ | c9 <;> rw [h9] at h <;>
        rcases h10 : row[10]? with _ | c10 <;> rw [h10] at h <;>
        simp at h
      · simp [hA, hB]
    · simp [hA]

theorem parseRow_ok_some (w : Nat) (cat : String) (row : Row) (rec : MarketRecord)
    (h : parseRow w cat row = .ok (some rec)) :
    acceptedRow row = true ∧ rec = recordOfRow w cat row := by
  rcases hc : row[2]? with _ | c
  · simp [parseRow, hc] at h
  · simp only [parseRow, hc] at h
    by_cases hA : (notna c && !cellEqStr c "TOTALT") = true
    · rw [if_pos hA] at h
      by_cases hB : (pyStrip (cellStr c) != "" && pyStrip (cellStr c) != "nan") = true
      · rw [if_pos hB] at h
        rcases h3 : row[3]? with _ | c3 <;> rw [h3] at h <;>
        rcases h4 : row[4]? with _ | c4 <;> rw [h4] at h <;>
        rcases h5 : row[5]? with _ | c5 <;> rw [h5] at h <;>
        rcases h6 : row[6]? with _ | c6 <;> rw [h6] at h <;>
        rcases h7 : row[7]? with _ | c7 <;> rw [h7] at h <;>
        rcases h8 : row[8]? with _ | c8 <;> rw [h8] at h <;>
        rcases h9 : row[9]? with _ | c9 <;> rw [h9] at h <;>
        rcases h10 : row[10]? with _ | c10 <;> rw [h10] at h <;>
        simp at h
        constructor
        · simp [acceptedRow, hc, Bool.and_eq_true, hA, hB]
        · simp [recordOfRow, hc, h3, h4, h5, h6, h7, h8, h9, h10, h]
      · rw [if_neg hB] at h
        simp at h
    · rw [if_neg hA] at h
      simp at h

theorem parseRows_all_accepted (w : Nat) (cat : String) (rows : List Row)
    (h : ∀ r ∈ rows, acceptedRow r = true ∧ 11 ≤ r.length) :
    parseRows w cat rows = .ok (rows.map (recordOfRow w cat)) := by
  induction rows with
  | nil => rfl
  | cons r rs ih =>
    obtain ⟨h1, h2⟩ := h r (by simp)
    have hr := parseRow_of_accepted w cat r h1 h2
    simp only [parseRows, hr, List.map_cons]
    rw [ih (fun x hx => h x (by simp [hx]))]

theorem parseRows_ok (w : Nat) (cat : String) (rows : List Row) (l : List MarketRecord)
    (h : parseRows w cat rows = .ok l) :
    l = (rows.filter acceptedRow).map (recordOfRow w cat) := by
  induction rows generalizing l with
  | nil =>
    simp only [parseRows] at h
    cases h
    rfl
  | cons r rs ih =>
    simp only [parseRows] at h
    rcases hp : parseRow w cat r with e | o <;> rw [hp] at h
    · simp at h
    · rcases o with _ | rec
      · have hacc := parseRow_ok_none w cat r hp
        rw [List.filter_cons_of_neg (by simp [hacc])]
        exact ih l h
      · obtain ⟨hacc, hrec⟩ := parseRow_ok_some w cat r rec hp
        rcases hq : parseRows w cat rs with e' | l' <;> rw [hq] at h
        · simp at h
        · simp only [Except.ok.injEq] at h
          rw [List.filter_cons_of_pos (by simp [hacc])]
          simp only [List.map_cons]
          rw [← h, hrec, ih l' hq]

theorem findDataStart_none (grid : RawGrid)
    (h : ∀ r ∈ grid, ∃ c, r[2]? = some c ∧ sentinelTest c = false) :
    findDataStart grid = .ok none := by
  induction grid with
  | nil => rfl
  | cons r rest ih =>
    obtain ⟨c, hc, hs⟩ := h r (by simp)
    simp only [findDataStart, hc, hs, Bool.false_eq_true, if_false]
    rw [ih (fun x hx => h x (by simp [hx]))]

theorem findDataStart_cons_hit (r : Row) (rest : RawGrid) (c : Cell)
    (hc : r[2]? = some c) (hs : sentinelTest c = true) :
    findDataStart (r :: rest) = .ok (some 0) := by
  simp [findDataStart, hc, hs]

theorem findDataStart_skip (pre rest : RawGrid) (m : Nat)
    (hpre : ∀ r ∈ pre, ∃ c, r[2]? = some c ∧ sentinelTest c = false)
    (hrest : findDataStart rest = .ok (some m)) :
    findDataStart (pre ++ rest) = .ok (some (pre.length + m)) := by
  induction pre with
  | nil => simpa using hrest
  | cons r p ih =>
    obtain ⟨c, hc, hs⟩ := hpre r (by simp)
    have hih := ih (fun x hx => hpre x (by simp [hx]))
    simp only [List.cons_append, findDataStart, hc, hs, Bool.false_eq_true, if_false,
      List.append_eq]
    rw [hih]
    simp only [Except.ok.injEq, Option.some.injEq, List.length_cons]
    omega

theorem findDataStart_first (grid : RawGrid) (j : Nat) (rj : Row) (cj : Cell)
    (hj : grid[j]? = some rj) (hc : rj[2]? = some cj) (hhit : sentinelTest cj = true)
    (hbefore : ∀ i, i < j →
      ∃ ri ci, grid[i]? = some ri ∧ ri[2]? = some ci ∧ sentinelTest ci = false) :
    findDataStart grid = .ok (some j) := by
  induction grid generalizing j with
  | nil => simp at hj
  | cons r rest ih =>
    cases j with
    | zero =>
      rw [List.getElem?_cons_zero] at hj
      cases hj
      exact findDataStart_cons_hit _ _ _ hc hhit
    | succ j' =>
      obtain ⟨r0, c0, h0, hc0, hs0⟩ := hbefore 0 (Nat.succ_pos j')
      rw [List.getElem?_cons_zero] at h0
      cases h0
      rw [List.getElem?_cons_succ] at hj
      have hih := ih j' hj (fun i hi => by
        have := hbefore (i + 1) (by omega)
        simpa [List.getElem?_cons_succ] using this)
      simp only [findDataStart, hc0, hs0, Bool.false_eq_true, if_false]
      rw [hih]

/-- C1: for a grid made of a run of non-sentinel rows, then the row labelled
exactly `TOTALT` at index `k = pre.length`, then `n` valid market rows (each
with the eight numeric columns present), the extractor returns exactly `n`
records, one per valid row, in grid order. -/
theorem c1_records_one_per_valid_row (w : Nat) (cat : String)
    (pre dataRows : List Row) (tot : Row)
    (hpre : ∀ r ∈ pre, ∃ c, r[2]? = some c ∧ sentinelTest c = false)
    (htot : tot[2]? = some (.str "TOTALT"))
    (hdata : ∀ r ∈ dataRows, acceptedRow r = true ∧ 11 ≤ r.length ∧
      ∃ c, r[2]? = some c ∧ strContains (cellStr c) "TOTALT" = false) :
    parse_weekly_data (pre ++ tot :: dataRows) w cat =
      .ok (dataRows.map (recordOfRow w cat)) ∧
    (dataRows.map (recordOfRow w cat)).length = dataRows.length := by
  have h0 : findDataStart (tot :: dataRows) = .ok (some 0) :=
    findDataStart_cons_hit _ _ _ htot (by decide)
  have hfind : findDataStart (pre ++ tot :: dataRows) = .ok (some pre.length) := by
    simpa using findDataStart_skip pre (tot :: dataRows) 0 hpre h0
  have hdrop : (pre ++ tot :: dataRows).drop pre.length = tot :: dataRows :=
    List.drop_left pre (tot :: dataRows)
  have htotrow : parseRow w cat tot = .ok none := by
    simp [parseRow, htot, notna, cellEqStr]
  refine ⟨?_, by simp⟩
  simp only [parse_weekly_data, hfind, hdrop]
  simp only [parseRows, htotrow]
  exact parseRows_all_accepted w cat dataRows (fun r hr => ⟨(hdata r hr).1, (hdata r hr).2.1⟩)

/-- C2: the data-section start is the index of the first row whose column-2
cell is non-missing and contains the substring `TOTALT`; later sentinel
occurrences do not restart the section, and the extraction continues from the
first match through the last row of the grid. -/
theorem c2_first_match_starts_section (grid : RawGrid) (w : Nat) (cat : String)
    (j : Nat) (rj : Row) (cj : Cell)
    (hj : grid[j]? = some rj) (hc : rj[2]? = some cj)
    (hhit : sentinelTest cj = true)
    (hbefore : ∀ i, i < j → ∃ ri ci, grid[i]? = some ri ∧ ri[2]? = some ci ∧
      sentinelTest ci = false) :
    findDataStart grid = .ok (some j) ∧
    parse_weekly_data grid w cat = parseRows w cat (grid.drop j) := by
  have hfind := findDataStart_first grid j rj cj hj hc hhit hbefore
  exact ⟨hfind, by simp only [parse_weekly_data, hfind]⟩

/-- The numeric field of a record that came from source column `j`
(columns 3..10, in the fixed order of the output schema). -/
def fieldAt (r : MarketRecord) : Nat → ℚ
  | 3 => r.currentWeekVolume
  | 4 => r.currentWeekPrice
  | 5 => r.previousYearVolume
  | 6 => r.previousYearPrice
  | 7 => r.ytdCurrentVolume
  | 8 => r.ytdCurrentPrice
  | 9 => r.ytdPreviousVolume
  | 10 => r.ytdPreviousPrice
  | _ => 0

/-- C3: on an accepted market row, a numeric source cell (columns 3..10) that
is empty, or non-empty but fails the pandas numeric coercion
(`parseNumStr s = none`: not an integer, float, scientific-notation or
infinity literal — pandas yields NaN and `.fillna(0)` makes it 0), produces
a zero output field, and the row is still emitted rather than dropped or
failed. -/
theorem c3_empty_or_unparseable_defaults_zero (w : Nat) (cat : String) (row : Row)
    (j : Nat) (hacc : acceptedRow row = true) (hlen : 11 ≤ row.length)
    (hj3 : 3 ≤ j) (hj10 : j ≤ 10)
    (hcell : (row[j]?).getD .empty = .empty ∨
      ∃ s, (row[j]?).getD .empty = Cell.str s ∧ parseNumStr s = none) :
    parseRow w cat row = .ok (some (recordOfRow w cat row)) ∧
    fieldAt (recordOfRow w cat row) j = 0 := by
  refine ⟨parseRow_of_accepted w cat row hacc hlen, ?_⟩
  have hco : coerceNum ((row[j]?).getD .empty) = 0 := by
    rcases hcell with h | ⟨s, hs, hp⟩
    · rw [h]; rfl
    · rw [hs]; simp [coerceNum, hp]
  interval_cases j <;> simpa [fieldAt, recordOfRow] using hco

/-- C4 (amended): every record the extractor emits corresponds, in order, to
exactly one grid row at or after the data-section start whose label column is
non-missing, not exactly the untrimmed string `TOTALT`, and whose trimmed
label is neither empty nor `nan`; the record's `market` field is that trimmed
label, hence non-empty and not `nan` — but it can equal `TOTALT` when the raw
label carried surrounding whitespace, so the original claim's
`market ≠ "TOTALT"` invariant does not hold. -/
theorem c4_records_correspond_to_accepted_rows (grid : RawGrid) (w : Nat) (cat : String)
    (l : List MarketRecord) (h : parse_weekly_data grid w cat = .ok l) :
    ((∃ k, findDataStart grid = .ok (some k) ∧
        l = ((grid.drop k).filter acceptedRow).map (recordOfRow w cat)) ∨
      (findDataStart grid = .ok none ∧ l = [])) ∧
    ∀ rec ∈ l, rec.market ≠ "" ∧ rec.market ≠ "nan" := by
  rcases hf : findDataStart grid with e | o
  · simp only [parse_weekly_data, hf] at h
    exact Except.noConfusion h
  · rcases o with _ | k
    · simp only [parse_weekly_data, hf, Except.ok.injEq] at h
      exact ⟨.inr ⟨rfl, h.symm⟩, by simp [← h]⟩
    · simp only [parse_weekly_data, hf] at h
      have hl := parseRows_ok w cat _ l h
      refine ⟨.inl ⟨k, rfl, hl⟩, ?_⟩
      intro rec hrec
      rw [hl] at hrec
      simp only [List.mem_map] at hrec
      obtain ⟨r, hrfil, hreq⟩ := hrec
      have haccr : acceptedRow r = true := (List.mem_filter.mp hrfil).2
      rcases hc2 : r[2]? with _ | c
      · simp [acceptedRow, hc2] at haccr
      · simp only [acceptedRow, hc2, Bool.and_eq_true, bne_iff_ne] at haccr
        obtain ⟨_, hne1, hne2⟩ := haccr
        rw [← hreq]
        constructor <;> simp [recordOfRow, hc2] <;> assumption

def c4row : Row :=
  [.empty, .empty, .str " TOTALT ", .empty, .empty, .empty, .empty,
   .empty, .empty, .empty, .empty]

def c4grid : RawGrid := [[.empty, .empty, .str "TOTALT"], c4row]

/-- C4 counterexample: a grid whose data row is labelled `" TOTALT "`
(sentinel with surrounding whitespace) makes the extractor emit a record whose
`market` field is exactly the sentinel string `TOTALT`, violating the claimed
invariant `market ≠ "TOTALT"`. -/
theorem c4_counterexample_whitespace_sentinel_emitted :
    parse_weekly_data c4grid 36 "laks_og_orret" =
      .ok [recordOfRow 36 "laks_og_orret" c4row] ∧
    (recordOfRow 36 "laks_og_orret" c4row).market = "TOTALT" :=
  ⟨rfl, rfl⟩

/-- C5 (amended): for every grid in which every row has a column-index-2 cell
and no row passes the sentinel test, the extractor returns the empty record
sequence and no error. (As stated, the claim is false: a grid with a row of
fewer than three cells has no sentinel in column 2, yet the scan raises
`IndexError` — see the counterexample.) -/
theorem c5_no_sentinel_returns_empty (grid : RawGrid) (w : Nat) (cat : String)
    (h : ∀ r ∈ grid, ∃ c, r[2]? = some c ∧ sentinelTest c = false) :
    parse_weekly_data grid w cat = .ok [] := by
  simp only [parse_weekly_data, findDataStart_none grid h]

/-- C5 counterexample: the one-row grid whose row is empty contains no
column-2 sentinel, yet the extractor raises `IndexError` while scanning
instead of returning the empty sequence. -/
theorem c5_counterexample_narrow_row_raises :
    parse_weekly_data [[]] 1 "laks_og_orret" = .error "IndexError" ∧
    parse_weekly_data [[]] 1 "laks_og_orret" ≠ .ok [] := by
  constructor
  · rfl
  · intro hcontra
    rw [show parse_weekly_data [[]] 1 "laks_og_orret" = .error "IndexError" from rfl] at hcontra
    exact Except.noConfusion hcontra

/-- C6: the sentinel-exclusion check of step 2a compares without trimming, so
a row whose column-2 cell is the string `" TOTALT "` is not excluded; it is
emitted as a record whose `market` label is the trimmed string `TOTALT`. -/
theorem c6_untrimmed_sentinel_accepted (w : Nat) (cat : String) (row : Row)
    (hc : row[2]? = some (.str " TOTALT ")) (hlen : 11 ≤ row.length) :
    ∃ r, parseRow w cat row = .ok (some r) ∧ r.market = "TOTALT" := by
  have hacc : acceptedRow row = true := by
    simp only [acceptedRow, hc]
    decide
  refine ⟨recordOfRow w cat row, parseRow_of_accepted w cat row hacc hlen, ?_⟩
  simp only [recordOfRow, hc, Option.getD_some]
  rfl

/-- Guarded growth percentage of `real_data_analysis.py` `analyze_weekly_data`:
`vol_change = ((vol_2025 - vol_2024) / vol_2024 * 100) if vol_2024 > 0 else 0`
(the same guard protects the price, YTD-volume and YTD-price changes). -/
def growthPercentGuarded (current prior : ℚ) : ℚ :=
  if prior > 0 then (current - prior) / prior * 100 else 0

/-- A pandas float-column value: a finite number, an infinity, or NaN. -/
inductive PdVal where
  | num : ℚ → PdVal
  | posInf : PdVal
  | negInf : PdVal
  | nan : PdVal
deriving DecidableEq, Repr

/-- Pandas (IEEE-754) division including a zero divisor: `x / 0` is signed
infinity for `x ≠ 0` and NaN for `0 / 0`; no exception is raised. -/
def pdDiv (x y : ℚ) : PdVal :=
  if y ≠ 0 then .num (x / y)
  else if x > 0 then .posInf
  else if x < 0 then .negInf
  else .nan

/-- Multiplication of a pandas value by the positive literal 100. -/
def pdMul100 : PdVal → PdVal
  | .num q => .num (q * 100)
  | .posInf => .posInf
  | .negInf => .negInf
  | .nan => .nan

/-- `Volume_Growth_Percent` of `process_seafood_data` in
`databricks-notebook.py`:
`(Current_Week_Volume - Previous_Year_Volume) / Previous_Year_Volume * 100`,
computed with no zero-denominator guard (the `.round(2)` does not affect
whether the result is finite). -/
def volumeGrowthPercentPandas (current prior : ℚ) : PdVal :=
  pdMul100 (pdDiv (current - prior) prior)

/-- C7 counterexample: the databricks-notebook growth computation has no
zero-denominator guard — for prior value 0 and current value 100 the pandas
division yields positive infinity, not the claimed fallback 0. -/
theorem c7_counterexample_unguarded_growth_is_infinite :
    volumeGrowthPercentPandas 100 0 = PdVal.posInf ∧
    PdVal.posInf ≠ PdVal.num 0 := by
  constructor
  · norm_num [volumeGrowthPercentPandas, pdDiv, pdMul100]
  · intro hcontra
    exact PdVal.noConfusion hcontra

/-- C7 (amended): the guarded growth computations of `real_data_analysis.py`
yield the fallback value 0 for a zero prior-period denominator, while the
unguarded pandas computation of `databricks-notebook.py` yields positive
infinity there for a positive numerator — the zero fallback does not hold for
every growth percentage the utilities produce. -/
theorem c7_guarded_growth_zero_denominator (current prior : ℚ) (hprior : prior = 0) :
    growthPercentGuarded current prior = 0 ∧
    (0 < current → volumeGrowthPercentPandas current prior = PdVal.posInf) := by
  subst hprior
  constructor
  · simp [growthPercentGuarded]
  · intro hpos
    simp [volumeGrowthPercentPandas, pdDiv, pdMul100, hpos]

/-- `_combine_all_data` of `comprehensive_analysis.py`: concatenation of the
per-file record lists, in order. -/
def combineAll (dfs : List (List MarketRecord)) : List MarketRecord := dfs.flatten

/-- `groupby('Category').agg(Current_Week_Volume: 'sum')` of `analyze_trends`,
read off at one category. -/
def categoryVolumeSum (l : List MarketRecord) (cat : String) : ℚ :=
  ((l.filter (fun r => r.category == cat)).map (fun r => r.currentWeekVolume)).sum

/-- C8: combining per-file extraction outputs (concatenation, as in
`_combine_all_data`) and then grouping by category reproduces the same
per-category totals as summing each file's grouped totals — concatenation
before aggregation is associative with respect to the group-by sums. -/
theorem c8_concat_then_group_eq_sum_of_groups
    (inputs : List (RawGrid × Nat × String)) (outs : List (List MarketRecord))
    (_hext : List.Forall₂
      (fun t out => parse_weekly_data t.1 t.2.1 t.2.2 = .ok out) inputs outs)
    (cat : String) :
    categoryVolumeSum (combineAll outs) cat =
      (outs.map (fun out => categoryVolumeSum out cat)).sum := by
  clear _hext
  induction outs with
  | nil => rfl
  | cons out rest ih =>
    simp only [combineAll, List.flatten_cons, categoryVolumeSum, List.filter_append,
      List.map_append, List.sum_append, List.map_cons, List.sum_cons] at *
    rw [ih]

/-- C9: the extractor is deterministic and referentially transparent — two
invocations with equal grids, weeks and categories produce equal outputs
(the embedding is a pure function of exactly these three inputs, mirroring
the source, which reads no state other than its arguments). -/
theorem c9_extractor_deterministic (g₁ g₂ : RawGrid) (w₁ w₂ : Nat) (c₁ c₂ : String)
    (hg : g₁ = g₂) (hw : w₁ = w₂) (hc : c₁ = c₂) :
    parse_weekly_data g₁ w₁ c₁ = parse_weekly_data g₂ w₂ c₂ := by
  rw [hg, hw, hc]

def c10row : Row := [.empty, .empty, .str "USA", .num 1, .num 2]

def c10grid : RawGrid :=
  [[.empty, .empty, .str "TOTALT", .empty, .empty], c10row]

/-- C10: the extractor reads columns 3..10 of an accepted row
unconditionally, so an accepted market row with fewer than 11 columns makes
extraction fail with an out-of-bounds access (`IndexError`) instead of
defaulting the missing fields to zero. -/
theorem c10_accepted_short_row_raises_index_error :
    acceptedRow c10row = true ∧ c10row.length = 5 ∧
    parse_weekly_data c10grid 36 "laks_og_orret" = .error "IndexError" :=
  ⟨rfl, rfl, rfl⟩

def c1wpre : List Row := [[.empty, .empty, .str "Norsk sjomatrad, uke 36"]]

def c1wtot : Row := [.empty, .empty, .str "TOTALT"]

def c1wrow : Row :=
  [.empty, .empty, .str "USA", .num 100, .num 50, .num 90, .num 48,
   .num 500, .num 49, .num 480, .num 47]

/-- Witness instantiating C1 on a concrete three-row grid. -/
theorem c1_witness :
    parse_weekly_data (c1wpre ++ c1wtot :: [c1wrow]) 36 "laks_og_orret" =
      .ok ([c1wrow].map (recordOfRow 36 "laks_og_orret")) ∧
    ([c1wrow].map (recordOfRow 36 "laks_og_orret")).length = [c1wrow].length :=
  c1_records_one_per_valid_row 36 "laks_og_orret" c1wpre [c1wrow] c1wtot
    (by intro r hr
        simp only [c1wpre, List.mem_singleton] at hr
        subst hr
        exact ⟨.str "Norsk sjomatrad, uke 36", rfl, by decide⟩)
    rfl
    (by intro r hr
        simp only [List.mem_singleton] at hr
        subst hr
        exact ⟨rfl, by decide, ⟨.str "USA", rfl, by decide⟩⟩)

def c2wgrid : RawGrid :=
  [[.empty, .empty, .str "Eksport av laks, uke 36"],
   [.empty, .empty, .str "TOTALT"],
   [.empty, .empty, .str "TOTALT (fotnote)"]]

/-- Witness instantiating C2 on a grid with a second, later sentinel row. -/
theorem c2_witness :
    findDataStart c2wgrid = .ok (some 1) ∧
    parse_weekly_data c2wgrid 36 "laks_og_orret" =
      parseRows 36 "laks_og_orret" (c2wgrid.drop 1) :=
  c2_first_match_starts_section c2wgrid 36 "laks_og_orret" 1
    [.empty, .empty, .str "TOTALT"] (.str "TOTALT") rfl rfl (by decide)
    (by intro i hi
        interval_cases i
        exact ⟨[.empty, .empty, .str "Eksport av laks, uke 36"],
          .str "Eksport av laks, uke 36", rfl, rfl, by decide⟩)

def c3wrow : Row :=
  [.empty, .empty, .str "USA", .empty, .str "E-18", .num 0, .num 0,
   .num 0, .num 0, .num 0, .num 0]

/-- Witness instantiating C3 at a non-numeric string cell in column 4. -/
theorem c3_witness :
    parseRow 36 "laks_og_orret" c3wrow =
      .ok (some (recordOfRow 36 "laks_og_orret" c3wrow)) ∧
    fieldAt (recordOfRow 36 "laks_og_orret" c3wrow) 4 = 0 :=
  c3_empty_or_unparseable_defaults_zero 36 "laks_og_orret" c3wrow 4
    rfl (by decide) (by decide) (by decide)
    (.inr ⟨"E-18", rfl, rfl⟩)

def c4wrow : Row :=
  [.empty, .empty, .str "Kina", .num 10, .num 20, .num 30, .num 40,
   .num 50, .num 60, .num 70, .num 80]

def c4wgrid : RawGrid := [[.empty, .empty, .str "TOTALT"], c4wrow]

/-- Witness instantiating the amended C4 on a concrete extraction. -/
theorem c4_witness :
    ((∃ k, findDataStart c4wgrid = .ok (some k) ∧
        [recordOfRow 36 "laks_og_orret" c4wrow] =
          ((c4wgrid.drop k).filter acceptedRow).map (recordOfRow 36 "laks_og_orret")) ∨
      (findDataStart c4wgrid = .ok none ∧
        [recordOfRow 36 "laks_og_orret" c4wrow] = [])) ∧
    ∀ rec ∈ [recordOfRow 36 "laks_og_orret" c4wrow],
      rec.market ≠ "" ∧ rec.market ≠ "nan" :=
  c4_records_correspond_to_accepted_rows c4wgrid 36 "laks_og_orret"
    [recordOfRow 36 "laks_og_orret" c4wrow] rfl

def c5wgrid : RawGrid := [[.empty, .empty, .str "Eksport av laks, uke 36"]]

/-- Witness instantiating the amended C5 on a sentinel-free grid. -/
theorem c5_witness : parse_weekly_data c5wgrid 36 "laks_og_orret" = .ok [] :=
  c5_no_sentinel_returns_empty c5wgrid 36 "laks_og_orret"
    (by intro r hr
        simp only [c5wgrid, List.mem_singleton] at hr
        subst hr
        exact ⟨.str "Eksport av laks, uke 36", rfl, by decide⟩)

def c6wrow : Row :=
  [.empty, .empty, .str " TOTALT ", .num 1, .num 2, .num 3, .num 4,
   .num 5, .num 6, .num 7, .num 8]

/-- Witness instantiating C6 on a concrete row. -/
theorem c6_witness :
    ∃ r, parseRow 36 "laks_og_orret" c6wrow = .ok (some r) ∧ r.market = "TOTALT" :=
  c6_untrimmed_sentinel_accepted 36 "laks_og_orret" c6wrow rfl (by decide)

/-- Witness instantiating the amended C7 at prior 0, current 100. -/
theorem c7_witness :
    growthPercentGuarded 100 0 = 0 ∧
    volumeGrowthPercentPandas 100 0 = PdVal.posInf :=
  ⟨(c7_guarded_growth_zero_denominator 100 0 rfl).1,
   (c7_guarded_growth_zero_denominator 100 0 rfl).2 (by norm_num)⟩

def c8wrow : Row :=
  [.empty, .empty, .str "Polen", .num 100, .num 50, .num 90, .num 48,
   .num 500, .num 49, .num 480, .num 47]

def c8wgrid : RawGrid := [[.empty, .empty, .str "TOTALT"], c8wrow]

/-- Witness instantiating C8 on one concretely extracted file. -/
theorem c8_witness :
    categoryVolumeSum (combineAll [[recordOfRow 36 "laks_og_orret" c8wrow]])
        "laks_og_orret" =
      ([[recordOfRow 36 "laks_og_orret" c8wrow]].map
        (fun out => categoryVolumeSum out "laks_og_orret")).sum :=
  c8_concat_then_group_eq_sum_of_groups [(c8wgrid, 36, "laks_og_orret")]
    [[recordOfRow 36 "laks_og_orret" c8wrow]]
    (List.Forall₂.cons rfl List.Forall₂.nil) "laks_og_orret"

def c9wgrid : RawGrid :=
  [[.empty, .empty, .str "TOTALT"],
   [.empty, .empty, .str "USA", .num 1, .num 2, .num 3, .num 4,
    .num 5, .num 6, .num 7, .num 8]]

/-- Witness instantiating C9 on a concrete grid. -/
theorem c9_witness :
    parse_weekly_data c9wgrid 36 "laks_og_orret" =
      parse_weekly_data c9wgrid 36 "laks_og_orret" :=
  c9_extractor_deterministic c9wgrid c9wgrid 36 36 "laks_og_orret" "laks_og_orret"
    rfl rfl rfl
